import Mathlib

/-!
Verification development for the `rosa describe cluster` command
(`cmd/describe/cluster/cmd.go`).

The Go file is presentation glue over the OCM SDK: it fetches a cluster and
its sub-resources (upgrade policies, machine/node pools, limited-support
reasons) and renders a text report or a structured map.  This file embeds the
data model and the presentation logic shallowly:

* Go structs from the SDK become Lean structures; a Go pointer that the code
  tests against `nil` becomes an `Option`; SDK getters that are nil-safe
  (returning the zero value on a nil receiver) become total functions on
  `Option`.
* Go `int` becomes `Int`; `fmt.Sprintf` with `%d` becomes `toString` on
  `Int`, and `%s` becomes string append.
* `time.Time` values only ever reach the output through `Format`, so they
  are embedded as the already-formatted `String`.
* Fallible collaborator calls (`ocm.Client` methods, `arn.Parse`) become
  `Except String` inputs to the embedded `run`.
-/

namespace DescribeCluster

/-- URL constants from the top of `cmd.go`. -/
def StageURL : String := "https://qaprodauth.console.redhat.com/openshift/details/s/"

/-- URL constant `ProductionURL` from `cmd.go`. -/
def ProductionURL : String := "https://console.redhat.com/openshift/details/s/"

/-- API environment constant `StageEnv` from `cmd.go`. -/
def StageEnv : String := "https://api.stage.openshift.com"

/-- API environment constant `ProductionEnv` from `cmd.go`. -/
def ProductionEnv : String := "https://api.openshift.com"

/-- `cmv1.UpgradePolicy`: the fields read by `cmd.go` (`Version()`,
`NextRun()`); `NextRun` is embedded as the formatted timestamp string. -/
structure UpgradePolicy where
  version : String
  nextRun : String
deriving DecidableEq

/-- `cmv1.UpgradePolicyState`: field read by `cmd.go` (`Value()`). -/
structure UpgradePolicyState where
  value : String
deriving DecidableEq

/-- `cmv1.ControlPlaneUpgradePolicy`: fields read by `cmd.go`.  The nested
`State()` is a pointer the code tests against `nil`, hence an `Option`. -/
structure ControlPlaneUpgradePolicy where
  state : Option UpgradePolicyState
  version : String
  nextRun : String
deriving DecidableEq

/-- Nil-safe `Value()` getter of `*cmv1.UpgradePolicyState` (the SDK getter
returns the empty string on a nil receiver). -/
def stateValue : Option UpgradePolicyState → String
  | none => ""
  | some s => s.value

/-- `cmv1.NodePoolAutoscaling`: `MinReplica()` / `MaxReplica()`. -/
structure NodePoolAutoscaling where
  minReplica : Int
  maxReplica : Int
deriving DecidableEq

/-- `cmv1.NodePoolStatus`: `CurrentReplicas()`. -/
structure NodePoolStatus where
  currentReplicas : Int
deriving DecidableEq

/-- `cmv1.NodePool`: the fields read by `cmd.go`.  `Autoscaling()` and
`Status()` are pointers tested against `nil`. -/
structure NodePool where
  availabilityZone : String
  autoscaling : Option NodePoolAutoscaling
  replicas : Int
  status : Option NodePoolStatus
deriving DecidableEq

/-- `cmv1.MachinePoolAutoscaling`: `MinReplicas()` / `MaxReplicas()`. -/
structure MachinePoolAutoscaling where
  minReplicas : Int
  maxReplicas : Int
deriving DecidableEq

/-- `cmv1.MachinePool`: the fields read by `cmd.go`. -/
structure MachinePool where
  autoscaling : Option MachinePoolAutoscaling
  replicas : Int
deriving DecidableEq

/-- `cmv1.ClusterNodes` (`cluster.Nodes()`): fields read by the classic
branch of `clusterInfraConfig`. -/
structure ClusterNodes where
  master : Int
  infra : Int
  compute : Int
  autoscaleCompute : Option MachinePoolAutoscaling
deriving DecidableEq

/-- `cmv1.LimitedSupportReason`: `Summary()` / `Details()`. -/
structure LimitedSupportReason where
  summary : String
  details : String
deriving DecidableEq

/-- `cmv1.ClusterStatus` (`cluster.Status()`): fields read by `run`.
`cmv1.ClusterState` is a string type in the SDK, embedded as `String`. -/
structure ClusterStatus where
  state : String
  dnsReady : Bool
  provisionErrorMessage : String
  provisionErrorCode : String
  description : String
deriving DecidableEq

/-- Nil-safe `DNSReady()` of `*cmv1.ClusterStatus`. -/
def statusDNSReady : Option ClusterStatus → Bool
  | none => false
  | some st => st.dnsReady

/-- Nil-safe `ProvisionErrorMessage()`. -/
def statusProvisionErrorMessage : Option ClusterStatus → String
  | none => ""
  | some st => st.provisionErrorMessage

/-- Nil-safe `ProvisionErrorCode()`. -/
def statusProvisionErrorCode : Option ClusterStatus → String
  | none => ""
  | some st => st.provisionErrorCode

/-- Nil-safe `Description()`. -/
def statusDescription : Option ClusterStatus → String
  | none => ""
  | some st => st.description

/-- Nil-safe `State()` of `*cmv1.ClusterStatus`. -/
def statusState : Option ClusterStatus → String
  | none => ""
  | some st => st.state

/-- `cmv1.Oidc` config (`cluster.AWS().STS().OidcConfig()`). -/
structure OidcConfig where
  managed : Bool
deriving DecidableEq

/-- `cmv1.InstanceIAMRoles`. -/
structure InstanceIAMRoles where
  masterRoleARN : String
  workerRoleARN : String
deriving DecidableEq

/-- One entry of `cluster.AWS().STS().OperatorIAMRoles()`. -/
structure OperatorIAMRole where
  roleARN : String
deriving DecidableEq

/-- `cmv1.STS` (`cluster.AWS().STS()`): fields read by `run`. -/
structure STS where
  roleARN : String
  externalID : String
  supportRoleARN : String
  instanceIAMRoles : InstanceIAMRoles
  operatorIAMRoles : List OperatorIAMRole
  managedPolicies : Bool
  oidcConfig : Option OidcConfig
  oidcEndpointURL : String
deriving DecidableEq

/-- `cmv1.AWS` (`cluster.AWS()`): fields read by `run` / `BillingAccount`. -/
structure AWSConfig where
  sts : STS
  billingAccountID : String
deriving DecidableEq

/-- `cmv1.Network` (`cluster.Network()`): fields read by `run`. -/
structure Network where
  netType : String
  serviceCIDR : String
  machineCIDR : String
  podCIDR : String
  hostPrefix : Int
deriving DecidableEq

/-- `cmv1.Proxy` (`cluster.Proxy()`). -/
structure ClusterProxy where
  httpProxy : String
  httpsProxy : String
  noProxy : String
deriving DecidableEq

/-- `cmv1.Cluster`: the fields of the cluster descriptor read by the
text-mode path of `run` and its helpers.  `creationTimestamp` is the
already-formatted `Format("Jan _2 2006 15:04:05 MST")` string, and
`creatorARNRaw` is the raw `Properties()[properties.CreatorARN]` string
handed to `arn.Parse`. -/
structure Cluster where
  name : String
  id : String
  externalID : String
  hypershiftEnabled : Bool
  multiAZ : Bool
  openshiftVersion : String
  channelGroup : String
  dnsBaseDomain : String
  apiURL : String
  apiListening : String
  consoleURL : String
  regionID : String
  network : Network
  nodePools : Option (List NodePool)
  nodes : ClusterNodes
  status : Option ClusterStatus
  state : String
  infraID : String
  proxy : Option ClusterProxy
  additionalTrustBundle : String
  aws : AWSConfig
  creationTimestamp : String
  disableUserWorkloadMonitoring : Bool
  fips : Bool
  subscriptionID : String
  creatorARNRaw : String
deriving DecidableEq

/-- `cmv1.ClusterStateWaiting` (SDK string constant). -/
def ClusterStateWaiting : String := "waiting"

/-- `cmv1.ClusterStatePending`. -/
def ClusterStatePending : String := "pending"

/-- `cmv1.ClusterStateInstalling`. -/
def ClusterStateInstalling : String := "installing"

/-- `cmv1.ClusterStateError`. -/
def ClusterStateError : String := "error"

/-- `cmv1.ListeningMethodInternal`. -/
def ListeningMethodInternal : String := "internal"

/-- `controlPlaneConfig` from `cmd.go`. -/
def controlPlaneConfig (cluster : Cluster) : String :=
  if cluster.hypershiftEnabled then "ROSA Service Hosted" else "Customer Hosted"

/-- The `dataPlaneAvailability` local of `clusterMultiAZ` (hosted branch):
starts as `"SingleAZ"`; only when the cluster descriptor's own
`NodePools()` field is non-nil does it build the set (Go map) of the
availability zones of the fetched node pools and switch to `"MultiAZ"`
when that set has more than one element. -/
def dataPlaneAvailability (cluster : Cluster) (nodePools : List NodePool) : String :=
  match cluster.nodePools with
  | none => "SingleAZ"
  | some _ =>
      if ((nodePools.map NodePool.availabilityZone).dedup).length > 1 then
        "MultiAZ"
      else
        "SingleAZ"

/-- `clusterMultiAZ` from `cmd.go`. -/
def clusterMultiAZ (cluster : Cluster) (nodePools : List NodePool) : String :=
  if cluster.hypershiftEnabled then
    "Availability:\n - Control Plane:           MultiAZ\n - Data Plane:              " ++
      dataPlaneAvailability cluster nodePools ++ "\n"
  else
    "Multi-AZ:                   " ++ (if cluster.multiAZ then "true" else "false") ++ "\n"

/-- The accumulation loop of the hosted branch of `clusterInfraConfig`:
starting from `minNodes = maxNodes = currentNodes = 0`, each node pool adds
its autoscaling min/max when `Autoscaling()` is non-nil, otherwise its fixed
`Replicas()` to both, and adds `Status().CurrentReplicas()` when `Status()`
is non-nil.  Result `(minNodes, maxNodes, currentNodes)`. -/
def hypershiftNodeCounts (nodePools : List NodePool) : Int × Int × Int :=
  nodePools.foldl
    (fun acc nodePool =>
      let acc1 : Int × Int × Int :=
        match nodePool.autoscaling with
        | some a => (acc.1 + a.minReplica, acc.2.1 + a.maxReplica, acc.2.2)
        | none => (acc.1 + nodePool.replicas, acc.2.1 + nodePool.replicas, acc.2.2)
      match nodePool.status with
      | some st => (acc1.1, acc1.2.1, acc1.2.2 + st.currentReplicas)
      | none => acc1)
    (0, 0, 0)

/-- The accumulation of the classic branch of `clusterInfraConfig`:
the machine-pool loop starting from `(0, 0)`, followed by the cluster-level
compute contribution (`AutoscaleCompute()` min/max when non-nil, else the
fixed `Compute()` added to both). -/
def classicNodeCounts (nodes : ClusterNodes) (machinePools : List MachinePool) : Int × Int :=
  let pools :=
    machinePools.foldl
      (fun acc machinePool =>
        match machinePool.autoscaling with
        | some a => (acc.1 + a.minReplicas, acc.2 + a.maxReplicas)
        | none => (acc.1 + machinePool.replicas, acc.2 + machinePool.replicas))
      (0, 0)
  match nodes.autoscaleCompute with
  | some a => (pools.1 + a.minReplicas, pools.2 + a.maxReplicas)
  | none => (pools.1 + nodes.compute, pools.2 + nodes.compute)

/-- The hosted autoscaled rendering of `clusterInfraConfig`
(`Compute (Autoscaled): min-max` plus the current count). -/
def hypershiftAutoscaledForm (minNodes maxNodes currentNodes : Int) : String :=
  "Nodes:\n - Compute (Autoscaled):    " ++ toString minNodes ++ "-" ++ toString maxNodes ++
    "\n - Compute (current):       " ++ toString currentNodes ++ "\n"

/-- The hosted single-value rendering of `clusterInfraConfig`
(`Compute (desired): max` plus the current count). -/
def hypershiftDesiredForm (maxNodes currentNodes : Int) : String :=
  "Nodes:\n - Compute (desired):       " ++ toString maxNodes ++
    "\n - Compute (current):       " ++ toString currentNodes ++ "\n"

/-- The hosted branch of `clusterInfraConfig` after the counts are
accumulated: `if minNodes != maxNodes` render the autoscaled range,
else the single desired value. -/
def hypershiftInfraRender (minNodes maxNodes currentNodes : Int) : String :=
  if minNodes ≠ maxNodes then
    hypershiftAutoscaledForm minNodes maxNodes currentNodes
  else
    hypershiftDesiredForm maxNodes currentNodes

/-- The classic single-value rendering of `clusterInfraConfig`
(control plane / infra fixed counts plus `Compute: min`). -/
def classicFixedForm (master infra minNodes : Int) : String :=
  "Nodes:\n - Control plane:           " ++ toString master ++
    "\n - Infra:                   " ++ toString infra ++
    "\n - Compute:                 " ++ toString minNodes ++ "\n"

/-- The classic autoscaled rendering of `clusterInfraConfig`
(control plane / infra fixed counts plus `Compute (Autoscaled): min-max`). -/
def classicAutoscaledForm (master infra minNodes maxNodes : Int) : String :=
  "Nodes:\n - Control plane:           " ++ toString master ++
    "\n - Infra:                   " ++ toString infra ++
    "\n - Compute (Autoscaled):    " ++ toString minNodes ++ "-" ++ toString maxNodes ++ "\n"

/-- The classic branch of `clusterInfraConfig` after the counts are
accumulated: `if minNodes == maxNodes` render the single value, else the
autoscaled range.  Master and infra come straight from the cluster's fixed
`Nodes().Master()` / `Nodes().Infra()`. -/
def classicInfraRender (master infra minNodes maxNodes : Int) : String :=
  if minNodes = maxNodes then
    classicFixedForm master infra minNodes
  else
    classicAutoscaledForm master infra minNodes maxNodes

/-- `clusterInfraConfig` from `cmd.go`.  The Go function also takes the
cluster key and the runtime but reads neither; they are dropped here. -/
def clusterInfraConfig (cluster : Cluster) (machinePools : List MachinePool)
    (nodePools : List NodePool) : String :=
  if cluster.hypershiftEnabled then
    let counts := hypershiftNodeCounts nodePools
    hypershiftInfraRender counts.1 counts.2.1 counts.2.2
  else
    let counts := classicNodeCounts cluster.nodes machinePools
    classicInfraRender cluster.nodes.master cluster.nodes.infra counts.1 counts.2

/-- `getDetailsLink` from `cmd.go`: a Go `switch` on exact string equality. -/
def getDetailsLink (environment : String) : String :=
  if environment = StageEnv then StageURL
  else if environment = ProductionEnv then ProductionURL
  else ""

/-- `getUseworkloadMonitoring` from `cmd.go`. -/
def getUseworkloadMonitoring (disabled : Bool) : String :=
  if disabled then "disabled" else "enabled"

/-- `BillingAccount` from `cmd.go`. -/
def BillingAccount (cluster : Cluster) (isHostedControlPlane : Bool) : String :=
  if !isHostedControlPlane || cluster.aws.billingAccountID = "" then ""
  else "AWS Billing Account:        " ++ cluster.aws.billingAccountID ++ "\n"

/-- The classic text-mode scheduled-upgrade section of `run`
(lines 334-343): appended only under `if scheduledUpgrade != nil`; the
state is read through the nil-safe `Value()` getter.  Returns the appended
text (empty when nothing is appended). -/
def scheduledUpgradeLineClassic (scheduledUpgrade : Option UpgradePolicy)
    (upgradeState : Option UpgradePolicyState) : String :=
  match scheduledUpgrade with
  | none => ""
  | some u =>
      "Scheduled Upgrade:          " ++ stateValue upgradeState ++ " " ++ u.version ++
        " on " ++ u.nextRun ++ "\n"

/-- The hosted text-mode scheduled-upgrade section of `run`
(lines 344-354): appended only under `if controlPlaneScheduledUpgrade != nil`. -/
def scheduledUpgradeLineHypershift
    (controlPlaneScheduledUpgrade : Option ControlPlaneUpgradePolicy) : String :=
  match controlPlaneScheduledUpgrade with
  | none => ""
  | some u =>
      "Scheduled Upgrade:          " ++ stateValue u.state ++ " " ++ u.version ++
        " on " ++ u.nextRun ++ "\n"

/-- The `scheduledUpgrade` sub-object logic of `formatCluster`
(lines 533-542): the sub-object `(version, state, nextRun)` is added to the
structured output exactly when `scheduledUpgrade != nil && upgradeState != nil
&& len(Version()) > 0 && len(Value()) > 0`; `none` means no sub-object. -/
def formatClusterScheduledUpgrade (scheduledUpgrade : Option UpgradePolicy)
    (upgradeState : Option UpgradePolicyState) : Option (String × String × String) :=
  match scheduledUpgrade, upgradeState with
  | some u, some s =>
      if 0 < u.version.length ∧ 0 < s.value.length then
        some (u.version, s.value, u.nextRun)
      else
        none
  | _, _ => none

/-- The `scheduledUpgrade` sub-object logic of `formatClusterHypershift`
(lines 560-569): added exactly when `scheduledUpgrade != nil &&
scheduledUpgrade.State() != nil && len(Version()) > 0 &&
len(State().Value()) > 0`. -/
def formatClusterHypershiftScheduledUpgrade
    (scheduledUpgrade : Option ControlPlaneUpgradePolicy) : Option (String × String × String) :=
  match scheduledUpgrade with
  | none => none
  | some u =>
      match u.state with
      | none => none
      | some s =>
          if 0 < u.version.length ∧ 0 < s.value.length then
            some (u.version, s.value, u.nextRun)
          else
            none

/-- One summary/detail pair of the limited-support loop of `run`
(lines 374-379). -/
def renderLimitedSupportReason (reason : LimitedSupportReason) : String :=
  " - Summary:                 " ++ reason.summary ++
    "\n - Details:                 " ++ reason.details ++ "\n"

/-- The limited-support section of `run` (lines 371-379): append the
header when `len(limitedSupportReasons) > 0`, then append one
summary/detail pair per reason in list order. -/
def appendLimitedSupport (str : String) (limitedSupportReasons : List LimitedSupportReason) :
    String :=
  let str1 := if limitedSupportReasons.length > 0 then str ++ "Limited Support:\n" else str
  limitedSupportReasons.foldl (fun s reason => s ++ renderLimitedSupportReason reason) str1

/-- The `phase` computation of `run` (lines 124-145): a Go `switch` on the
cluster state, then an unconditional override when the status description is
non-empty. -/
def computePhase (cluster : Cluster) : String :=
  let phase :=
    if cluster.state = ClusterStateWaiting then "(Waiting for user action)"
    else if cluster.state = ClusterStatePending then "(Preparing account)"
    else if cluster.state = ClusterStateInstalling then
      let p := if !statusDNSReady cluster.status then "(DNS setup in progress)" else ""
      if statusProvisionErrorMessage cluster.status ≠ "" then
        let errorCode :=
          if statusProvisionErrorCode cluster.status ≠ "" then
            statusProvisionErrorCode cluster.status ++ " - "
          else ""
        "(" ++ errorCode ++ "Install is taking longer than expected)"
      else p
    else ""
  if statusDescription cluster.status ≠ "" then
    "(" ++ statusDescription cluster.status ++ ")"
  else phase

/-- The `clusterDNS` computation of `run` (lines 147-150). -/
def computeClusterDNS (cluster : Cluster) : String :=
  if cluster.status ≠ none && statusDNSReady cluster.status then
    cluster.name ++ "." ++ cluster.dnsBaseDomain
  else
    "Not ready"

/-- The `isPrivate` computation of `run` (lines 154-157). -/
def computeIsPrivate (cluster : Cluster) : String :=
  if cluster.apiListening = ListeningMethodInternal then "Yes" else "No"

/-- `ocm.NetworkTypes[0]`.  Modelled from the spec: `pkg/ocm` is not under
the sources here; the spec treats the network-type line as plain formatting,
so the default network type is embedded as an abstract constant. -/
def defaultNetworkType : String := "OpenShiftSDN"

/-- The `networkType` computation of `run` (lines 161-167). -/
def computeNetworkType (cluster : Cluster) : String :=
  if cluster.network.netType ≠ defaultNetworkType then
    " - Type:                    " ++ cluster.network.netType ++ "\n"
  else ""

/-- The result of `arn.Parse` on the creator ARN: the only field `run`
reads is `AccountID`. -/
structure AwsArn where
  accountID : String
deriving DecidableEq

/-- The initial short cluster description of `run` (the single `Sprintf`
at lines 183-223), with each `%s` / `%d` argument in source order. -/
def describeShort (cluster : Cluster) (creatorARN : AwsArn)
    (machinePools : List MachinePool) (nodePools : List NodePool) : String :=
  "\nName:                       " ++ cluster.name ++
  "\nID:                         " ++ cluster.id ++
  "\nExternal ID:                " ++ cluster.externalID ++
  "\nControl Plane:              " ++ controlPlaneConfig cluster ++
  "\nOpenShift Version:          " ++ cluster.openshiftVersion ++
  "\nChannel Group:              " ++ cluster.channelGroup ++
  "\nDNS:                        " ++ computeClusterDNS cluster ++
  "\nAWS Account:                " ++ creatorARN.accountID ++ "\n" ++
  BillingAccount cluster cluster.hypershiftEnabled ++
  "API URL:                    " ++ cluster.apiURL ++
  "\nConsole URL:                " ++ cluster.consoleURL ++
  "\nRegion:                     " ++ cluster.regionID ++ "\n" ++
  clusterMultiAZ cluster nodePools ++
  clusterInfraConfig cluster machinePools nodePools ++
  "Network:\n" ++
  computeNetworkType cluster ++
  " - Service CIDR:            " ++ cluster.network.serviceCIDR ++
  "\n - Machine CIDR:            " ++ cluster.network.machineCIDR ++
  "\n - Pod CIDR:                " ++ cluster.network.podCIDR ++
  "\n - Host Prefix:             /" ++ toString cluster.network.hostPrefix ++ "\n"

/-- The optional proxy section of `run` (lines 229-246). -/
def proxySection (cluster : Cluster) : String :=
  match cluster.proxy with
  | none => ""
  | some p =>
      if p.httpProxy ≠ "" || p.httpsProxy ≠ "" then
        "Proxy:\n" ++
        (if p.httpProxy ≠ "" then " - HTTPProxy:               " ++ p.httpProxy ++ "\n" else "") ++
        (if p.httpsProxy ≠ "" then " - HTTPSProxy:              " ++ p.httpsProxy ++ "\n" else "") ++
        (if p.noProxy ≠ "" then " - NoProxy:                 " ++ p.noProxy ++ "\n" else "")
      else ""

/-- The optional STS section of `run` (lines 252-295). -/
def stsSection (cluster : Cluster) : String :=
  let sts := cluster.aws.sts
  if sts.roleARN ≠ "" then
    "STS Role ARN:               " ++ sts.roleARN ++ "\n" ++
    (if sts.externalID ≠ "" then "STS External ID:            " ++ sts.externalID ++ "\n" else "") ++
    (if sts.supportRoleARN ≠ "" then
        "Support Role ARN:           " ++ sts.supportRoleARN ++ "\n"
      else "") ++
    (if sts.instanceIAMRoles.masterRoleARN ≠ "" || sts.instanceIAMRoles.workerRoleARN ≠ "" then
        "Instance IAM Roles:\n" ++
        (if sts.instanceIAMRoles.masterRoleARN ≠ "" then
            " - Control plane:           " ++ sts.instanceIAMRoles.masterRoleARN ++ "\n"
          else "") ++
        (if sts.instanceIAMRoles.workerRoleARN ≠ "" then
            " - Worker:                  " ++ sts.instanceIAMRoles.workerRoleARN ++ "\n"
          else "")
      else "") ++
    (if sts.operatorIAMRoles.length > 0 then
        "Operator IAM Roles:\n" ++
          String.join (sts.operatorIAMRoles.map (fun role => " - " ++ role.roleARN ++ "\n"))
      else "") ++
    "Managed Policies:           " ++ (if sts.managedPolicies then "Yes" else "No") ++ "\n"
  else ""

/-- The `managementType` computation of `run` (lines 322-328). -/
def computeManagementType (cluster : Cluster) : String :=
  match cluster.aws.sts.oidcConfig with
  | none => "Classic"
  | some cfg => if cfg.managed then "Managed" else "Unmanaged"

/-- The tail sections of `run` after the short description: infra ID, proxy,
trust bundle, STS, state/private/created, monitoring, FIPS, details page,
OIDC endpoint, scheduled upgrade, provisioning error (lines 225-364). -/
def describeTail (cluster : Cluster)
    (scheduledUpgrade : Option UpgradePolicy) (upgradeState : Option UpgradePolicyState)
    (controlPlaneScheduledUpgrade : Option ControlPlaneUpgradePolicy) : String :=
  (if cluster.infraID ≠ "" then "Infra ID:                   " ++ cluster.infraID ++ "\n" else "") ++
  proxySection cluster ++
  (if cluster.additionalTrustBundle ≠ "" then "Additional trust bundle:    REDACTED\n" else "") ++
  stsSection cluster ++
  "State:                      " ++ cluster.state ++ " " ++ computePhase cluster ++ "\n" ++
  "Private:                    " ++ computeIsPrivate cluster ++ "\n" ++
  "Created:                    " ++ cluster.creationTimestamp ++ "\n" ++
  (if cluster.disableUserWorkloadMonitoring then
      "User Workload Monitoring:   " ++
        getUseworkloadMonitoring cluster.disableUserWorkloadMonitoring ++ "\n"
    else "") ++
  (if cluster.fips then "FIPS mode:                  enabled\n" else "") ++
  (if getDetailsLink cluster.apiURL ≠ "" then
      "Details Page:               " ++ getDetailsLink cluster.apiURL ++
        cluster.subscriptionID ++ "\n"
    else "") ++
  (if cluster.aws.sts.oidcEndpointURL ≠ "" then
      "OIDC Endpoint URL:          " ++ cluster.aws.sts.oidcEndpointURL ++ " (" ++
        computeManagementType cluster ++ ")\n"
    else "") ++
  (if !cluster.hypershiftEnabled then
      scheduledUpgradeLineClassic scheduledUpgrade upgradeState
    else
      scheduledUpgradeLineHypershift controlPlaneScheduledUpgrade) ++
  (if statusState cluster.status = ClusterStateError then
      "Provisioning Error Code:    " ++ statusProvisionErrorCode cluster.status ++ "\n" ++
        "Provisioning Error Message: " ++ statusProvisionErrorMessage cluster.status ++ "\n"
    else "")

/-- An observable effect of `run`: a write to standard output
(`fmt.Print`) or to standard error (`Reporter.Errorf`). -/
inductive Event where
  | stdout (s : String)
  | stderr (s : String)
deriving DecidableEq

/-- The fallible inputs of one text-mode execution of `run`: the result of
each collaborator call the command can make, plus the local `arn.Parse` of
the creator ARN.  `Except.error e` carries the message text `%v` would
print for the error. -/
structure RunInputs where
  getScheduledUpgrade : Except String (Option UpgradePolicy × Option UpgradePolicyState)
  getControlPlaneScheduledUpgrade : Except String (Option ControlPlaneUpgradePolicy)
  arnParse : Except String AwsArn
  getMachinePools : Except String (List MachinePool)
  getNodePools : Except String (List NodePool)
  getLimitedSupportReasons : Except String (List LimitedSupportReason)

/-- The text-mode path of `run` (output flag unset), embedded as a function
from the cluster, the cluster key, and the collaborator results to the list
of emitted events plus the process exit code (`os.Exit(1)` on any error,
`0` on normal completion).  The report string is accumulated exactly as in
the source and written to standard output by the single `fmt.Print(str)` at
the end. -/
def run (cluster : Cluster) (clusterKey : String) (inputs : RunInputs) :
    List Event × Nat :=
  let fetchUpgrade : Except String
      (Option UpgradePolicy × Option UpgradePolicyState × Option ControlPlaneUpgradePolicy) :=
    if !cluster.hypershiftEnabled then
      match inputs.getScheduledUpgrade with
      | Except.error e => Except.error e
      | Except.ok (su, us) => Except.ok (su, us, none)
    else
      match inputs.getControlPlaneScheduledUpgrade with
      | Except.error e => Except.error e
      | Except.ok cpsu => Except.ok (none, none, cpsu)
  match fetchUpgrade with
  | Except.error e =>
      ([Event.stderr ("Failed to get scheduled upgrades for cluster " ++ clusterKey ++ ": " ++ e)],
        1)
  | Except.ok (scheduledUpgrade, upgradeState, controlPlaneScheduledUpgrade) =>
      match inputs.arnParse with
      | Except.error _ =>
          ([Event.stderr ("Failed to parse creator ARN for cluster " ++ clusterKey)], 1)
      | Except.ok creatorARN =>
          let fetchPools : Except String (List MachinePool × List NodePool) :=
            if cluster.hypershiftEnabled then
              match inputs.getNodePools with
              | Except.error e => Except.error e
              | Except.ok nodePools => Except.ok ([], nodePools)
            else
              match inputs.getMachinePools with
              | Except.error e => Except.error e
              | Except.ok machinePools => Except.ok (machinePools, [])
          match fetchPools with
          | Except.error e =>
              ([Event.stderr ("Failed to get machine pools for cluster " ++ clusterKey ++
                  ": " ++ e)], 1)
          | Except.ok (machinePools, nodePools) =>
              let str := describeShort cluster creatorARN machinePools nodePools ++
                describeTail cluster scheduledUpgrade upgradeState controlPlaneScheduledUpgrade
              match inputs.getLimitedSupportReasons with
              | Except.error e =>
                  ([Event.stderr ("Failed to get limited support reasons for cluster " ++
                      cluster.id ++ ": " ++ e)], 1)
              | Except.ok limitedSupportReasons =>
                  let str := appendLimitedSupport str limitedSupportReasons
                  let str := str ++ "\n"
                  ([Event.stdout str], 0)

/-- Whether an `Except` result is an error. -/
def isError {ε α : Type} : Except ε α → Bool
  | Except.error _ => true
  | Except.ok _ => false

/-! ### Spec-side readings of the aggregation

The spec describes each pool as contributing an autoscale `min`/`max` pair
when it has an autoscale config, else its fixed replica count, and a
current-replica count of `0` when it reports no status; the aggregate is the
sum of the per-pool contributions. -/

/-- Spec reading: the min-side contribution of one node pool. -/
def npContribMin (nodePool : NodePool) : Int :=
  match nodePool.autoscaling with
  | some a => a.minReplica
  | none => nodePool.replicas

/-- Spec reading: the max-side contribution of one node pool. -/
def npContribMax (nodePool : NodePool) : Int :=
  match nodePool.autoscaling with
  | some a => a.maxReplica
  | none => nodePool.replicas

/-- Spec reading: the current-replica contribution of one node pool
(`0` when the pool reports no status). -/
def npContribCurrent (nodePool : NodePool) : Int :=
  match nodePool.status with
  | some st => st.currentReplicas
  | none => 0

/-- Spec reading: the min-side contribution of one machine pool. -/
def mpContribMin (machinePool : MachinePool) : Int :=
  match machinePool.autoscaling with
  | some a => a.minReplicas
  | none => machinePool.replicas

/-- Spec reading: the max-side contribution of one machine pool. -/
def mpContribMax (machinePool : MachinePool) : Int :=
  match machinePool.autoscaling with
  | some a => a.maxReplicas
  | none => machinePool.replicas

/-- Spec reading: the min-side cluster-level compute contribution of a
classic cluster. -/
def clusterComputeMin (nodes : ClusterNodes) : Int :=
  match nodes.autoscaleCompute with
  | some a => a.minReplicas
  | none => nodes.compute

/-- Spec reading: the max-side cluster-level compute contribution of a
classic cluster. -/
def clusterComputeMax (nodes : ClusterNodes) : Int :=
  match nodes.autoscaleCompute with
  | some a => a.maxReplicas
  | none => nodes.compute

/-- Spec reading: the summary/detail pairs of the limited-support section,
one per reason, in input order. -/
def limitedSupportPairsSpec : List LimitedSupportReason → String
  | [] => ""
  | reason :: rest => renderLimitedSupportReason reason ++ limitedSupportPairsSpec rest

theorem hypershiftNodeCounts_foldl (nodePools : List NodePool) (acc : Int × Int × Int) :
    nodePools.foldl
      (fun acc nodePool =>
        let acc1 : Int × Int × Int :=
          match nodePool.autoscaling with
          | some a => (acc.1 + a.minReplica, acc.2.1 + a.maxReplica, acc.2.2)
          | none => (acc.1 + nodePool.replicas, acc.2.1 + nodePool.replicas, acc.2.2)
        match nodePool.status with
        | some st => (acc1.1, acc1.2.1, acc1.2.2 + st.currentReplicas)
        | none => acc1)
      acc =
      (acc.1 + (nodePools.map npContribMin).sum,
        acc.2.1 + (nodePools.map npContribMax).sum,
        acc.2.2 + (nodePools.map npContribCurrent).sum) := by
  induction nodePools generalizing acc with
  | nil => simp
  | cons nodePool rest ih =>
      simp only [List.foldl_cons, List.map_cons, List.sum_cons, ih]
      cases h1 : nodePool.autoscaling <;> cases h2 : nodePool.status <;>
        simp only [npContribMin, npContribMax, npContribCurrent, h1, h2] <;>
        exact Prod.ext (by ring) (Prod.ext (by ring) (by ring))

theorem hypershiftNodeCounts_eq (nodePools : List NodePool) :
    hypershiftNodeCounts nodePools =
      ((nodePools.map npContribMin).sum,
        (nodePools.map npContribMax).sum,
        (nodePools.map npContribCurrent).sum) := by
  unfold hypershiftNodeCounts
  rw [hypershiftNodeCounts_foldl]
  simp

theorem classicNodeCounts_foldl (machinePools : List MachinePool) (acc : Int × Int) :
    machinePools.foldl
      (fun acc machinePool =>
        match machinePool.autoscaling with
        | some a => (acc.1 + a.minReplicas, acc.2 + a.maxReplicas)
        | none => (acc.1 + machinePool.replicas, acc.2 + machinePool.replicas))
      acc =
      (acc.1 + (machinePools.map mpContribMin).sum,
        acc.2 + (machinePools.map mpContribMax).sum) := by
  induction machinePools generalizing acc with
  | nil => simp
  | cons machinePool rest ih =>
      simp only [List.foldl_cons, List.map_cons, List.sum_cons, ih]
      cases h1 : machinePool.autoscaling <;>
        simp only [mpContribMin, mpContribMax, h1] <;>
        exact Prod.ext (by ring) (by ring)

theorem classicNodeCounts_eq (nodes : ClusterNodes) (machinePools : List MachinePool) :
    classicNodeCounts nodes machinePools =
      ((machinePools.map mpContribMin).sum + clusterComputeMin nodes,
        (machinePools.map mpContribMax).sum + clusterComputeMax nodes) := by
  unfold classicNodeCounts
  rw [classicNodeCounts_foldl]
  cases h : nodes.autoscaleCompute <;>
    simp only [clusterComputeMin, clusterComputeMax, h] <;>
    exact Prod.ext (by ring) (by ring)

/-! ### String helpers

`fmt.Sprintf` with `%d` renders an integer in decimal; the characters of
such a rendering are decimal digits and the minus sign, so a letter that
occurs only in one of two fixed templates separates the two renderings. -/

theorem digitChar_ne_A (d : Nat) : Nat.digitChar d ≠ 'A' := by
  by_cases h : d < 16
  · interval_cases d <;> decide
  · intro hc
    unfold Nat.digitChar at hc
    repeat rw [if_neg (by omega)] at hc
    exact absurd hc (by decide)

theorem char_mem_toDigitsCore (base : Nat) (c : Char) (fuel : Nat) :
    ∀ (n : Nat) (ds : List Char), c ∈ Nat.toDigitsCore base fuel n ds →
      c ∈ ds ∨ ∃ d, c = Nat.digitChar d := by
  induction fuel with
  | zero => intro n ds h; exact Or.inl h
  | succ fuel ih =>
      intro n ds h
      unfold Nat.toDigitsCore at h
      by_cases hb : n / base = 0
      · rw [if_pos hb] at h
        rcases List.mem_cons.mp h with h | h
        · exact Or.inr ⟨n % base, h⟩
        · exact Or.inl h
      · rw [if_neg hb] at h
        rcases ih _ _ h with h | h
        · rcases List.mem_cons.mp h with h | h
          · exact Or.inr ⟨n % base, h⟩
          · exact Or.inl h
        · exact Or.inr h

theorem char_mem_natRepr (n : Nat) (c : Char) (h : c ∈ (Nat.repr n).data) :
    ∃ d, c = Nat.digitChar d := by
  have h2 : c ∈ Nat.toDigitsCore 10 (n + 1) n [] := h
  rcases char_mem_toDigitsCore 10 c (n + 1) n [] h2 with h3 | h3
  · cases h3
  · exact h3

theorem char_mem_intToString (i : Int) (c : Char) (h : c ∈ (toString i).data) :
    c = '-' ∨ ∃ d, c = Nat.digitChar d := by
  cases i with
  | ofNat n => exact Or.inr (char_mem_natRepr n c h)
  | negSucc n =>
      have h2 : c ∈ ("-" ++ Nat.repr (n + 1)).data := h
      rw [String.data_append] at h2
      rcases List.mem_append.mp h2 with h3 | h3
      · rcases List.mem_singleton.mp h3 with rfl
        exact Or.inl rfl
      · exact Or.inr (char_mem_natRepr (n + 1) c h3)

theorem A_not_mem_intToString (i : Int) : 'A' ∉ (toString i).data := by
  intro h
  rcases char_mem_intToString i 'A' h with h | ⟨d, hd⟩
  · exact absurd h (by decide)
  · exact digitChar_ne_A d hd.symm

theorem char_not_mem_append {c : Char} {s t : String}
    (hs : c ∉ s.data) (ht : c ∉ t.data) : c ∉ (s ++ t).data := by
  rw [String.data_append]
  intro h
  rcases List.mem_append.mp h with h | h
  · exact hs h
  · exact ht h

theorem char_mem_append_left {c : Char} {s : String} (t : String) (h : c ∈ s.data) :
    c ∈ (s ++ t).data := by
  rw [String.data_append]
  exact List.mem_append.mpr (Or.inl h)

theorem char_mem_append_right {c : Char} (s : String) {t : String} (h : c ∈ t.data) :
    c ∈ (s ++ t).data := by
  rw [String.data_append]
  exact List.mem_append.mpr (Or.inr h)

theorem A_mem_hypershiftAutoscaledForm (minNodes maxNodes currentNodes : Int) :
    'A' ∈ (hypershiftAutoscaledForm minNodes maxNodes currentNodes).data := by
  unfold hypershiftAutoscaledForm
  exact char_mem_append_left _ (char_mem_append_left _ (char_mem_append_left _
    (char_mem_append_left _ (char_mem_append_left _ (char_mem_append_left _ (by decide))))))

theorem A_not_mem_hypershiftDesiredForm (maxNodes currentNodes : Int) :
    'A' ∉ (hypershiftDesiredForm maxNodes currentNodes).data := by
  unfold hypershiftDesiredForm
  refine char_not_mem_append (char_not_mem_append (char_not_mem_append
    (char_not_mem_append (by decide) (A_not_mem_intToString maxNodes)) (by decide))
    (A_not_mem_intToString currentNodes)) (by decide)

theorem A_mem_classicAutoscaledForm (master infra minNodes maxNodes : Int) :
    'A' ∈ (classicAutoscaledForm master infra minNodes maxNodes).data := by
  unfold classicAutoscaledForm
  exact char_mem_append_left _ (char_mem_append_left _ (char_mem_append_left _
    (char_mem_append_left _ (char_mem_append_right _ (by decide)))))

theorem A_not_mem_classicFixedForm (master infra minNodes : Int) :
    'A' ∉ (classicFixedForm master infra minNodes).data := by
  unfold classicFixedForm
  refine char_not_mem_append (char_not_mem_append (char_not_mem_append
    (char_not_mem_append (char_not_mem_append (char_not_mem_append
      (by decide) (A_not_mem_intToString master)) (by decide))
      (A_not_mem_intToString infra)) (by decide))
    (A_not_mem_intToString minNodes)) (by decide)

theorem hypershiftForms_ne (minNodes maxNodes currentNodes maxNodes2 currentNodes2 : Int) :
    hypershiftAutoscaledForm minNodes maxNodes currentNodes ≠
      hypershiftDesiredForm maxNodes2 currentNodes2 := by
  intro h
  have hm := A_mem_hypershiftAutoscaledForm minNodes maxNodes currentNodes
  rw [String.ext_iff] at h
  rw [h] at hm
  exact A_not_mem_hypershiftDesiredForm maxNodes2 currentNodes2 hm

theorem classicForms_ne (master infra minNodes maxNodes master2 infra2 minNodes2 : Int) :
    classicAutoscaledForm master infra minNodes maxNodes ≠
      classicFixedForm master2 infra2 minNodes2 := by
  intro h
  have hm := A_mem_classicAutoscaledForm master infra minNodes maxNodes
  rw [String.ext_iff] at h
  rw [h] at hm
  exact A_not_mem_classicFixedForm master2 infra2 minNodes2 hm

theorem append_left_ne_empty {s t : String} (hs : s.data ≠ []) : s ++ t ≠ "" := by
  intro h
  rw [String.ext_iff, String.data_append] at h
  rcases List.append_eq_nil.mp h with ⟨h1, _⟩
  exact hs h1

theorem string_length_pos_iff (s : String) : 0 < s.length ↔ s ≠ "" := by
  cases s with
  | mk data =>
      cases data with
      | nil => simp [String.length]
      | cons c rest =>
          refine ⟨fun _ h => ?_, fun _ => by simp [String.length]⟩
          rw [String.ext_iff] at h
          exact List.noConfusion h

theorem append_ne_empty_of_left {s t : String} (hs : s ≠ "") : s ++ t ≠ "" := by
  intro h
  rw [String.ext_iff, String.data_append] at h
  rcases List.append_eq_nil.mp h with ⟨h1, _⟩
  exact hs (String.ext h1)

theorem limitedSupport_foldl (reasons : List LimitedSupportReason) (s : String) :
    reasons.foldl (fun s reason => s ++ renderLimitedSupportReason reason) s =
      s ++ limitedSupportPairsSpec reasons := by
  induction reasons generalizing s with
  | nil => simp [limitedSupportPairsSpec]
  | cons reason rest ih =>
      simp only [List.foldl_cons, limitedSupportPairsSpec, ih, String.append_assoc]

/-! ### Sample inputs used by witnesses and counterexamples -/

/-- A node pool with a fixed replica count in zone a. -/
def samplePoolA : NodePool :=
  { availabilityZone := "us-east-1a", autoscaling := none, replicas := 2, status := none }

/-- A node pool with a fixed replica count in zone b. -/
def samplePoolB : NodePool :=
  { availabilityZone := "us-east-1b", autoscaling := none, replicas := 3,
    status := some { currentReplicas := 3 } }

/-- An autoscaled node pool. -/
def samplePoolAutoscaled : NodePool :=
  { availabilityZone := "us-east-1a", autoscaling := some { minReplica := 1, maxReplica := 4 },
    replicas := 0, status := some { currentReplicas := 2 } }

/-- An autoscaled machine pool. -/
def sampleMachinePoolAutoscaled : MachinePool :=
  { autoscaling := some { minReplicas := 2, maxReplicas := 5 }, replicas := 0 }

/-- Cluster-level node counts of the sample classic cluster. -/
def sampleNodes : ClusterNodes :=
  { master := 3, infra := 2, compute := 4, autoscaleCompute := none }

/-- A classic (non-hypershift) sample cluster. -/
def sampleCluster : Cluster :=
  { name := "mycluster", id := "abc123", externalID := "ext-1",
    hypershiftEnabled := false, multiAZ := false,
    openshiftVersion := "4.14.9", channelGroup := "stable",
    dnsBaseDomain := "example.com", apiURL := "https://api.example.com",
    apiListening := "external", consoleURL := "https://console.example.com",
    regionID := "us-east-1",
    network :=
      { netType := "OpenShiftSDN", serviceCIDR := "172.30.0.0/16",
        machineCIDR := "10.0.0.0/16", podCIDR := "10.128.0.0/14", hostPrefix := 23 },
    nodePools := none, nodes := sampleNodes, status := none, state := "ready",
    infraID := "", proxy := none, additionalTrustBundle := "",
    aws :=
      { sts :=
          { roleARN := "", externalID := "", supportRoleARN := "",
            instanceIAMRoles := { masterRoleARN := "", workerRoleARN := "" },
            operatorIAMRoles := [], managedPolicies := false, oidcConfig := none,
            oidcEndpointURL := "" },
        billingAccountID := "" },
    creationTimestamp := "Jan  1 2024 00:00:00 UTC",
    disableUserWorkloadMonitoring := false, fips := false,
    subscriptionID := "sub-1", creatorARNRaw := "arn:aws:iam::123456789012:user/me" }

/-- A hosted sample cluster whose descriptor carries no node-pool field. -/
def sampleHostedClusterNilPools : Cluster :=
  { sampleCluster with hypershiftEnabled := true, nodePools := none }

/-- A hosted sample cluster whose descriptor carries a node-pool field. -/
def sampleHostedCluster : Cluster :=
  { sampleCluster with hypershiftEnabled := true, nodePools := some [samplePoolA] }

/-- Collaborator results where every call succeeds except the
limited-support fetch. -/
def sampleInputsLimitedSupportError : RunInputs :=
  { getScheduledUpgrade := Except.ok (none, none),
    getControlPlaneScheduledUpgrade := Except.ok none,
    arnParse := Except.ok { accountID := "123456789012" },
    getMachinePools := Except.ok [],
    getNodePools := Except.ok [],
    getLimitedSupportReasons := Except.error "boom" }

/-! ### Claims -/

/-- C1 counterexample: the claim says the scheduled-upgrade line is
rendered only when state, version and next-run are all present, in text
mode as well as structured mode.  On the code, the classic text path checks
only that the fetched policy is non-nil: with an empty version, an empty
next-run and a nil upgrade state it still renders a (partial) line.
Moreover the structured path adds the sub-object even when the next-run
field is empty, so next-run presence is never required. -/
theorem upgradeLine_renders_partial_info :
    scheduledUpgradeLineClassic (some { version := "", nextRun := "" }) none =
      "Scheduled Upgrade:            on \n" ∧
    ("Scheduled Upgrade:            on \n" : String) ≠ "" ∧
    (formatClusterScheduledUpgrade (some { version := "4.14.9", nextRun := "" })
        (some { value := "scheduled" })) =
      some ("4.14.9", "scheduled", "") := by
  refine ⟨by decide, by decide, ?_⟩
  rw [formatClusterScheduledUpgrade, if_pos (by decide)]

/-- C1 (amended): the classic and hosted text paths render the
scheduled-upgrade line iff the fetched policy is non-nil (the emptiness of
state, version and next-run is not consulted), while the structured paths
add the `scheduledUpgrade` sub-object iff the policy is non-nil, the state
is non-nil, and version and state value are non-empty (next-run is not
consulted). -/
theorem upgradeLine_policy_presence :
    (∀ (su : Option UpgradePolicy) (us : Option UpgradePolicyState),
        scheduledUpgradeLineClassic su us = "" ↔ su = none) ∧
    (∀ su : Option ControlPlaneUpgradePolicy,
        scheduledUpgradeLineHypershift su = "" ↔ su = none) ∧
    (∀ (su : Option UpgradePolicy) (us : Option UpgradePolicyState),
        (formatClusterScheduledUpgrade su us).isSome = true ↔
          (∃ u s, su = some u ∧ us = some s ∧ u.version ≠ "" ∧ s.value ≠ "")) ∧
    (∀ su : Option ControlPlaneUpgradePolicy,
        (formatClusterHypershiftScheduledUpgrade su).isSome = true ↔
          (∃ u s, su = some u ∧ u.state = some s ∧ u.version ≠ "" ∧ s.value ≠ "")) := by
  refine ⟨?_, ?_, ?_, ?_⟩
  · intro su us
    cases su with
    | none => simp [scheduledUpgradeLineClassic]
    | some u =>
        simp only [scheduledUpgradeLineClassic]
        constructor
        · intro h
          exact absurd h (append_ne_empty_of_left (append_ne_empty_of_left
            (append_ne_empty_of_left (append_ne_empty_of_left
              (append_ne_empty_of_left (append_ne_empty_of_left (by decide)))))))
        · intro h
          exact Option.noConfusion h
  · intro su
    cases su with
    | none => simp [scheduledUpgradeLineHypershift]
    | some u =>
        simp only [scheduledUpgradeLineHypershift]
        constructor
        · intro h
          exact absurd h (append_ne_empty_of_left (append_ne_empty_of_left
            (append_ne_empty_of_left (append_ne_empty_of_left
              (append_ne_empty_of_left (append_ne_empty_of_left (by decide)))))))
        · intro h
          exact Option.noConfusion h
  · intro su us
    cases su with
    | none => simp [formatClusterScheduledUpgrade]
    | some u =>
        cases us with
        | none => simp [formatClusterScheduledUpgrade]
        | some s =>
            by_cases h1 : 0 < u.version.length ∧ 0 < s.value.length
            · rw [formatClusterScheduledUpgrade, if_pos h1]
              simp only [Option.isSome_some, true_iff]
              exact ⟨u, s, rfl, rfl, (string_length_pos_iff _).mp h1.1,
                (string_length_pos_iff _).mp h1.2⟩
            · rw [formatClusterScheduledUpgrade, if_neg h1]
              simp only [Option.isSome_none, Bool.false_eq_true, false_iff]
              rintro ⟨u2, s2, hu, hs, hv, hsv⟩
              injection hu with hu
              injection hs with hs
              subst hu
              subst hs
              exact h1 ⟨(string_length_pos_iff _).mpr hv, (string_length_pos_iff _).mpr hsv⟩
  · intro su
    cases su with
    | none => simp [formatClusterHypershiftScheduledUpgrade]
    | some u =>
        cases hst : u.state with
        | none =>
            simp only [formatClusterHypershiftScheduledUpgrade, hst]
            simp only [Option.isSome_none, Bool.false_eq_true, false_iff]
            rintro ⟨u2, s2, hu, hs, hv, hsv⟩
            injection hu with hu
            subst hu
            rw [hst] at hs
            exact Option.noConfusion hs
        | some s =>
            by_cases h1 : 0 < u.version.length ∧ 0 < s.value.length
            · simp only [formatClusterHypershiftScheduledUpgrade, hst]
              rw [if_pos h1]
              simp only [Option.isSome_some, true_iff]
              exact ⟨u, s, rfl, hst, (string_length_pos_iff _).mp h1.1,
                (string_length_pos_iff _).mp h1.2⟩
            · simp only [formatClusterHypershiftScheduledUpgrade, hst]
              rw [if_neg h1]
              simp only [Option.isSome_none, Bool.false_eq_true, false_iff]
              rintro ⟨u2, s2, hu, hs, hv, hsv⟩
              injection hu with hu
              subst hu
              rw [hst] at hs
              injection hs with hs
              subst hs
              exact h1 ⟨(string_length_pos_iff _).mpr hv, (string_length_pos_iff _).mpr hsv⟩

/-- C1 witness: with no policy the classic text line is suppressed, and
with a full policy the structured sub-object is added. -/
theorem upgradeLine_policy_presence_witness :
    scheduledUpgradeLineClassic none none = "" ∧
    (formatClusterScheduledUpgrade (some { version := "4.14.9", nextRun := "t" })
        (some { value := "scheduled" })).isSome = true :=
  ⟨(upgradeLine_policy_presence.1 none none).mpr rfl,
    (upgradeLine_policy_presence.2.2.1 (some { version := "4.14.9", nextRun := "t" })
        (some { value := "scheduled" })).mpr
      ⟨{ version := "4.14.9", nextRun := "t" }, { value := "scheduled" }, rfl, rfl,
        by decide, by decide⟩⟩

/-- C2 counterexample: on a hosted cluster whose descriptor's own
node-pool field is nil, the data plane is reported `SingleAZ` even though
the fetched node-pool list spans two distinct availability zones, so
`MultiAZ ⟺ distinctZones > 1` fails as stated. -/
theorem multiAZ_nil_descriptor_counterexample :
    sampleHostedClusterNilPools.hypershiftEnabled = true ∧
    sampleHostedClusterNilPools.nodePools = none ∧
    (([samplePoolA, samplePoolB].map NodePool.availabilityZone).dedup).length > 1 ∧
    ¬(dataPlaneAvailability sampleHostedClusterNilPools [samplePoolA, samplePoolB] = "MultiAZ" ↔
        (([samplePoolA, samplePoolB].map NodePool.availabilityZone).dedup).length > 1) := by
  refine ⟨rfl, rfl, by decide, ?_⟩
  intro h
  have h2 : dataPlaneAvailability sampleHostedClusterNilPools [samplePoolA, samplePoolB] =
      "SingleAZ" := rfl
  have h3 := h.mpr (by decide)
  rw [h2] at h3
  exact absurd h3 (by decide)

/-- C2 (amended): for a hosted cluster whose descriptor's node-pool field
is non-nil, the data plane is reported `MultiAZ` iff the node pools span
more than one distinct availability zone and `SingleAZ` iff they span at
most one; the control plane is always rendered `MultiAZ`. -/
theorem multiAZ_distinct_zone_resolution (cluster : Cluster) (nodePools : List NodePool)
    (hhs : cluster.hypershiftEnabled = true) (hnp : cluster.nodePools ≠ none) :
    (dataPlaneAvailability cluster nodePools = "MultiAZ" ↔
        ((nodePools.map NodePool.availabilityZone).dedup).length > 1) ∧
    (dataPlaneAvailability cluster nodePools = "SingleAZ" ↔
        ((nodePools.map NodePool.availabilityZone).dedup).length ≤ 1) ∧
    clusterMultiAZ cluster nodePools =
      "Availability:\n - Control Plane:           MultiAZ\n - Data Plane:              " ++
        dataPlaneAvailability cluster nodePools ++ "\n" := by
  have hd : dataPlaneAvailability cluster nodePools =
      if ((nodePools.map NodePool.availabilityZone).dedup).length > 1 then "MultiAZ"
      else "SingleAZ" := by
    cases hc : cluster.nodePools with
    | none => exact absurd hc hnp
    | some l => simp only [dataPlaneAvailability, hc]
  refine ⟨?_, ?_, ?_⟩
  · rw [hd]
    by_cases h : ((nodePools.map NodePool.availabilityZone).dedup).length > 1
    · rw [if_pos h]
      simp [h]
    · rw [if_neg h]
      simp only [h, iff_false]
      intro h2
      exact absurd h2 (by decide)
  · rw [hd]
    by_cases h : ((nodePools.map NodePool.availabilityZone).dedup).length > 1
    · rw [if_pos h]
      constructor
      · intro h2
        exact absurd h2 (by decide)
      · intro h2
        omega
    · rw [if_neg h]
      simp only [true_iff]
      omega
  · rw [clusterMultiAZ, if_pos hhs]

/-- C2 witness: a hosted cluster with a non-nil node-pool field and pools
in two distinct zones resolves to a `MultiAZ` data plane. -/
theorem multiAZ_distinct_zone_resolution_witness :
    dataPlaneAvailability sampleHostedCluster [samplePoolA, samplePoolB] = "MultiAZ" :=
  (multiAZ_distinct_zone_resolution sampleHostedCluster [samplePoolA, samplePoolB] rfl
    (by simp [sampleHostedCluster, sampleCluster])).1.mpr (by decide)

/-- C10: on a hosted cluster whose descriptor's node-pool field is nil, the
data plane is reported `SingleAZ` no matter which node-pool list is passed
in; the distinct-zone count is never consulted. -/
theorem multiAZ_nil_descriptor_single_az (cluster : Cluster) (nodePools : List NodePool)
    (hhs : cluster.hypershiftEnabled = true) (hnp : cluster.nodePools = none) :
    dataPlaneAvailability cluster nodePools = "SingleAZ" ∧
    clusterMultiAZ cluster nodePools =
      "Availability:\n - Control Plane:           MultiAZ\n - Data Plane:              SingleAZ\n" := by
  have h1 : dataPlaneAvailability cluster nodePools = "SingleAZ" := by
    rw [dataPlaneAvailability, hnp]
  refine ⟨h1, ?_⟩
  rw [clusterMultiAZ, if_pos hhs, h1]
  decide

/-- C10 witness: even with two distinct zones in the fetched list, the nil
descriptor field forces `SingleAZ`. -/
theorem multiAZ_nil_descriptor_single_az_witness :
    dataPlaneAvailability sampleHostedClusterNilPools [samplePoolA, samplePoolB] = "SingleAZ" :=
  (multiAZ_nil_descriptor_single_az sampleHostedClusterNilPools [samplePoolA, samplePoolB]
    rfl rfl).1

/-- C3: the hosted node-count aggregation sums, over all node pools, the
autoscale min (resp. max) when a pool has an autoscale config and its fixed
replica count otherwise, and sums the reported current replicas with `0`
for a pool without status; zero pools give all-zero counts. -/
theorem hypershift_node_count_aggregation (nodePools : List NodePool) :
    hypershiftNodeCounts nodePools =
      ((nodePools.map npContribMin).sum,
        (nodePools.map npContribMax).sum,
        (nodePools.map npContribCurrent).sum) ∧
    hypershiftNodeCounts [] = (0, 0, 0) :=
  ⟨hypershiftNodeCounts_eq nodePools, rfl⟩

/-- C3 witness: concrete evaluation of the hosted aggregation. -/
theorem hypershift_node_count_aggregation_witness :
    hypershiftNodeCounts [samplePoolAutoscaled, samplePoolB] = (4, 7, 5) := by
  rw [(hypershift_node_count_aggregation [samplePoolAutoscaled, samplePoolB]).1]
  decide

/-- C4: the classic node-count aggregation is the machine-pool sum plus the
cluster-level compute contribution; the master and infra fields never enter
the min/max range (the counts are invariant under changing them), and with
zero machine pools the range is exactly the cluster-level contribution.
The classic rendering of `clusterInfraConfig` reports master and infra
directly from the cluster's fixed `Nodes().Master()` / `Nodes().Infra()`. -/
theorem classic_node_count_aggregation (nodes : ClusterNodes)
    (machinePools : List MachinePool) :
    classicNodeCounts nodes machinePools =
      ((machinePools.map mpContribMin).sum + clusterComputeMin nodes,
        (machinePools.map mpContribMax).sum + clusterComputeMax nodes) ∧
    (∀ m i : Int,
        classicNodeCounts { nodes with master := m, infra := i } machinePools =
          classicNodeCounts nodes machinePools) ∧
    classicNodeCounts nodes [] = (clusterComputeMin nodes, clusterComputeMax nodes) ∧
    (∀ cluster : Cluster, cluster.hypershiftEnabled = false →
        clusterInfraConfig cluster machinePools [] =
          classicInfraRender cluster.nodes.master cluster.nodes.infra
            (classicNodeCounts cluster.nodes machinePools).1
            (classicNodeCounts cluster.nodes machinePools).2) := by
  refine ⟨classicNodeCounts_eq nodes machinePools, fun m i => rfl, ?_, ?_⟩
  · rw [classicNodeCounts_eq]
    simp [clusterComputeMin, clusterComputeMax]
  · intro cluster hc
    rw [clusterInfraConfig, if_neg (by rw [hc]; exact Bool.false_ne_true)]

/-- C4 witness: evaluating the classic aggregation on a concrete cluster. -/
theorem classic_node_count_aggregation_witness :
    clusterInfraConfig sampleCluster [sampleMachinePoolAutoscaled] [] =
      classicInfraRender sampleCluster.nodes.master sampleCluster.nodes.infra
        (classicNodeCounts sampleCluster.nodes [sampleMachinePoolAutoscaled]).1
        (classicNodeCounts sampleCluster.nodes [sampleMachinePoolAutoscaled]).2 :=
  (classic_node_count_aggregation sampleNodes [sampleMachinePoolAutoscaled]).2.2.2
    sampleCluster rfl

/-- C5: in both branches, the rendering is the single desired/compute form
iff the aggregated min equals the aggregated max (exact integer equality),
and the min-max autoscaled-range form iff they differ. -/
theorem render_single_iff_min_eq_max (minNodes maxNodes currentNodes master infra : Int) :
    (hypershiftInfraRender minNodes maxNodes currentNodes =
        hypershiftDesiredForm maxNodes currentNodes ↔ minNodes = maxNodes) ∧
    (hypershiftInfraRender minNodes maxNodes currentNodes =
        hypershiftAutoscaledForm minNodes maxNodes currentNodes ↔ minNodes ≠ maxNodes) ∧
    (classicInfraRender master infra minNodes maxNodes =
        classicFixedForm master infra minNodes ↔ minNodes = maxNodes) ∧
    (classicInfraRender master infra minNodes maxNodes =
        classicAutoscaledForm master infra minNodes maxNodes ↔ minNodes ≠ maxNodes) := by
  by_cases h : minNodes = maxNodes
  · rw [hypershiftInfraRender, if_neg (by simpa using h), classicInfraRender, if_pos h]
    refine ⟨by simp [h], ?_, by simp [h], ?_⟩
    · constructor
      · intro h2
        exact absurd h2.symm (hypershiftForms_ne _ _ _ _ _)
      · intro h2
        exact absurd h h2
    · constructor
      · intro h2
        exact absurd h2.symm (classicForms_ne _ _ _ _ _ _ _)
      · intro h2
        exact absurd h h2
  · rw [hypershiftInfraRender, if_pos h, classicInfraRender, if_neg h]
    refine ⟨?_, by simp [h], ?_, by simp [h]⟩
    · constructor
      · intro h2
        exact absurd h (by exact fun hne => hne (absurd h2 (hypershiftForms_ne _ _ _ _ _)))
      · intro h2
        exact absurd h2 h
    · constructor
      · intro h2
        exact absurd h2 (classicForms_ne _ _ _ _ _ _ _)
      · intro h2
        exact absurd h2 h

/-- C5 witness: equal counts render the single form, unequal counts the
range form. -/
theorem render_single_iff_min_eq_max_witness :
    hypershiftInfraRender 2 2 5 = hypershiftDesiredForm 2 5 ∧
    classicInfraRender 3 2 1 4 = classicAutoscaledForm 3 2 1 4 :=
  ⟨(render_single_iff_min_eq_max 2 2 5 0 0).1.mpr rfl,
    (render_single_iff_min_eq_max 1 4 0 3 2).2.2.2.mpr (by decide)⟩

/-- C6: when every autoscaled pool (and, classically, the cluster-level
autoscale-compute config) has min ≤ max, the aggregated minNodes ≤
maxNodes; when nothing autoscales, minNodes = maxNodes. -/
theorem aggregated_min_le_max (nodePools : List NodePool) (nodes : ClusterNodes)
    (machinePools : List MachinePool) :
    ((∀ np ∈ nodePools, ∀ a, np.autoscaling = some a → a.minReplica ≤ a.maxReplica) →
        (hypershiftNodeCounts nodePools).1 ≤ (hypershiftNodeCounts nodePools).2.1) ∧
    ((∀ np ∈ nodePools, np.autoscaling = none) →
        (hypershiftNodeCounts nodePools).1 = (hypershiftNodeCounts nodePools).2.1) ∧
    ((∀ mp ∈ machinePools, ∀ a, mp.autoscaling = some a → a.minReplicas ≤ a.maxReplicas) →
      (∀ a, nodes.autoscaleCompute = some a → a.minReplicas ≤ a.maxReplicas) →
        (classicNodeCounts nodes machinePools).1 ≤ (classicNodeCounts nodes machinePools).2) ∧
    ((∀ mp ∈ machinePools, mp.autoscaling = none) → nodes.autoscaleCompute = none →
        (classicNodeCounts nodes machinePools).1 = (classicNodeCounts nodes machinePools).2) := by
  refine ⟨?_, ?_, ?_, ?_⟩
  · intro h
    rw [hypershiftNodeCounts_eq]
    refine List.sum_le_sum ?_
    intro np hnp
    rw [npContribMin, npContribMax]
    cases ha : np.autoscaling with
    | none => exact le_refl _
    | some a => exact h np hnp a ha
  · intro h
    rw [hypershiftNodeCounts_eq]
    have : nodePools.map npContribMin = nodePools.map npContribMax := by
      refine List.map_congr_left ?_
      intro np hnp
      rw [npContribMin, npContribMax, h np hnp]
    rw [this]
  · intro hp hc
    rw [classicNodeCounts_eq]
    refine add_le_add ?_ ?_
    · refine List.sum_le_sum ?_
      intro mp hmp
      rw [mpContribMin, mpContribMax]
      cases ha : mp.autoscaling with
      | none => exact le_refl _
      | some a => exact hp mp hmp a ha
    · rw [clusterComputeMin, clusterComputeMax]
      cases ha : nodes.autoscaleCompute with
      | none => exact le_refl _
      | some a => exact hc a ha
  · intro hp hc
    have h1 : machinePools.map mpContribMin = machinePools.map mpContribMax := by
      refine List.map_congr_left ?_
      intro mp hmp
      rw [mpContribMin, mpContribMax, hp mp hmp]
    have h2 : clusterComputeMin nodes = clusterComputeMax nodes := by
      rw [clusterComputeMin, clusterComputeMax, hc]
    rw [classicNodeCounts_eq, h1, h2]

/-- C6 witness: an autoscaled node pool with min ≤ max yields min ≤ max in
the aggregate; pools without autoscaling yield an exact equality. -/
theorem aggregated_min_le_max_witness :
    (hypershiftNodeCounts [samplePoolAutoscaled]).1 ≤
      (hypershiftNodeCounts [samplePoolAutoscaled]).2.1 ∧
    (hypershiftNodeCounts [samplePoolA, samplePoolB]).1 =
      (hypershiftNodeCounts [samplePoolA, samplePoolB]).2.1 ∧
    (classicNodeCounts sampleNodes []).1 = (classicNodeCounts sampleNodes []).2 := by
  refine ⟨(aggregated_min_le_max [samplePoolAutoscaled] sampleNodes []).1 ?_,
    (aggregated_min_le_max [samplePoolA, samplePoolB] sampleNodes []).2.1 ?_,
    (aggregated_min_le_max [] sampleNodes []).2.2.2 ?_ rfl⟩
  · intro np hnp a ha
    rw [List.mem_singleton] at hnp
    subst hnp
    rw [show samplePoolAutoscaled.autoscaling =
        some { minReplica := 1, maxReplica := 4 } from rfl] at ha
    injection ha with ha
    subst ha
    decide
  · intro np hnp
    rcases List.mem_pair.mp hnp with rfl | rfl
    · rfl
    · rfl
  · intro mp hmp
    exact absurd hmp (List.not_mem_nil mp)

theorem join_cons (s : String) (l : List String) :
    String.join (s :: l) = s ++ String.join l := by
  apply String.ext
  simp [String.data_join]

theorem limitedSupportPairsSpec_eq_join (reasons : List LimitedSupportReason) :
    limitedSupportPairsSpec reasons = String.join (reasons.map renderLimitedSupportReason) := by
  induction reasons with
  | nil => simp [limitedSupportPairsSpec, String.join]
  | cons reason rest ih =>
      rw [limitedSupportPairsSpec, ih, List.map_cons, join_cons]

/-- C7: the limited-support section appends the header exactly when the
reason list is non-empty, followed by one summary/detail pair per reason in
input order; the number of rendered pairs equals the number of reasons, and
an empty list leaves the report unchanged. -/
theorem limited_support_section (str : String) (reasons : List LimitedSupportReason) :
    appendLimitedSupport str reasons =
      str ++ ((if reasons.length > 0 then "Limited Support:\n" else "") ++
        limitedSupportPairsSpec reasons) ∧
    limitedSupportPairsSpec reasons = String.join (reasons.map renderLimitedSupportReason) ∧
    (reasons.map renderLimitedSupportReason).length = reasons.length ∧
    (reasons = [] → appendLimitedSupport str reasons = str) := by
  have h1 : appendLimitedSupport str reasons =
      str ++ ((if reasons.length > 0 then "Limited Support:\n" else "") ++
        limitedSupportPairsSpec reasons) := by
    rw [appendLimitedSupport]
    by_cases h : reasons.length > 0
    · rw [if_pos h, if_pos h, limitedSupport_foldl, String.append_assoc]
    · rw [if_neg h, if_neg h, limitedSupport_foldl, String.empty_append]
  refine ⟨h1, limitedSupportPairsSpec_eq_join reasons, List.length_map _ _, ?_⟩
  · intro h
    subst h
    rw [h1]
    simp [limitedSupportPairsSpec]

/-- C7 witness: a two-reason list renders the header and both pairs in
order. -/
theorem limited_support_section_witness :
    appendLimitedSupport "X" [{ summary := "s1", details := "d1" },
        { summary := "s2", details := "d2" }] =
      "X" ++ ("Limited Support:\n" ++
        limitedSupportPairsSpec [{ summary := "s1", details := "d1" },
          { summary := "s2", details := "d2" }]) :=
  (limited_support_section "X" [{ summary := "s1", details := "d1" },
    { summary := "s2", details := "d2" }]).1

/-- C8: `getDetailsLink` maps the stage environment URL to the stage
details-page prefix, the production environment URL to the production
prefix, and every other string (including the empty string and
trailing-slash near-misses) to the empty string. -/
theorem details_link_resolution :
    getDetailsLink StageEnv = StageURL ∧
    getDetailsLink ProductionEnv = ProductionURL ∧
    (∀ s : String, s ≠ StageEnv → s ≠ ProductionEnv → getDetailsLink s = "") ∧
    getDetailsLink "" = "" ∧
    getDetailsLink (StageEnv ++ "/") = "" ∧
    getDetailsLink (ProductionEnv ++ "/") = "" := by
  refine ⟨?_, ?_, ?_, ?_, ?_, ?_⟩
  · rw [getDetailsLink, if_pos rfl]
  · rw [getDetailsLink, if_neg (by decide), if_pos rfl]
  · intro s h1 h2
    rw [getDetailsLink, if_neg h1, if_neg h2]
  · decide
  · decide
  · decide

/-- C8 witness: an unrelated URL yields no details link. -/
theorem details_link_resolution_witness :
    getDetailsLink "https://api.example.com" = "" :=
  details_link_resolution.2.2.1 "https://api.example.com" (by decide) (by decide)

/-- A collaborator call made during this run returned an error: the
scheduled-upgrade fetch of the active branch, the pool fetch of the active
branch, or the limited-support fetch. -/
def collabError (cluster : Cluster) (inputs : RunInputs) : Prop :=
  (cluster.hypershiftEnabled = false ∧ isError inputs.getScheduledUpgrade = true) ∨
  (cluster.hypershiftEnabled = true ∧ isError inputs.getControlPlaneScheduledUpgrade = true) ∨
  (cluster.hypershiftEnabled = false ∧ isError inputs.getMachinePools = true) ∨
  (cluster.hypershiftEnabled = true ∧ isError inputs.getNodePools = true) ∨
  isError inputs.getLimitedSupportReasons = true

theorem run_collab_error_core (cluster : Cluster) (clusterKey : String)
    (inputs : RunInputs) (h : collabError cluster inputs) :
    ∃ msg, run cluster clusterKey inputs = ([Event.stderr msg], 1) := by
  cases hhs : cluster.hypershiftEnabled with
  | false =>
      cases hsu : inputs.getScheduledUpgrade with
      | error e =>
          exact ⟨"Failed to get scheduled upgrades for cluster " ++ clusterKey ++ ": " ++ e,
            by simp [run, hhs, hsu]⟩
      | ok p =>
          obtain ⟨su, us⟩ := p
          cases harn : inputs.arnParse with
          | error e2 =>
              exact ⟨"Failed to parse creator ARN for cluster " ++ clusterKey,
                by simp [run, hhs, hsu, harn]⟩
          | ok creatorARN =>
              cases hmp : inputs.getMachinePools with
              | error e3 =>
                  exact ⟨"Failed to get machine pools for cluster " ++ clusterKey ++ ": " ++ e3,
                    by simp [run, hhs, hsu, harn, hmp]⟩
              | ok machinePools =>
                  cases hlsr : inputs.getLimitedSupportReasons with
                  | error e4 =>
                      exact ⟨"Failed to get limited support reasons for cluster " ++
                          cluster.id ++ ": " ++ e4,
                        by simp [run, hhs, hsu, harn, hmp, hlsr]⟩
                  | ok limitedSupportReasons =>
                      exfalso
                      rcases h with ⟨_, hb⟩ | ⟨ht, _⟩ | ⟨_, hb⟩ | ⟨ht, _⟩ | hb
                      · rw [hsu] at hb
                        exact absurd hb (by simp [isError])
                      · rw [hhs] at ht
                        exact Bool.noConfusion ht
                      · rw [hmp] at hb
                        exact absurd hb (by simp [isError])
                      · rw [hhs] at ht
                        exact Bool.noConfusion ht
                      · rw [hlsr] at hb
                        exact absurd hb (by simp [isError])
  | true =>
      cases hsu : inputs.getControlPlaneScheduledUpgrade with
      | error e =>
          exact ⟨"Failed to get scheduled upgrades for cluster " ++ clusterKey ++ ": " ++ e,
            by simp [run, hhs, hsu]⟩
      | ok cpsu =>
          cases harn : inputs.arnParse with
          | error e2 =>
              exact ⟨"Failed to parse creator ARN for cluster " ++ clusterKey,
                by simp [run, hhs, hsu, harn]⟩
          | ok creatorARN =>
              cases hnp : inputs.getNodePools with
              | error e3 =>
                  exact ⟨"Failed to get machine pools for cluster " ++ clusterKey ++ ": " ++ e3,
                    by simp [run, hhs, hsu, harn, hnp]⟩
              | ok nodePools =>
                  cases hlsr : inputs.getLimitedSupportReasons with
                  | error e4 =>
                      exact ⟨"Failed to get limited support reasons for cluster " ++
                          cluster.id ++ ": " ++ e4,
                        by simp [run, hhs, hsu, harn, hnp, hlsr]⟩
                  | ok limitedSupportReasons =>
                      exfalso
                      rcases h with ⟨ht, _⟩ | ⟨_, hb⟩ | ⟨ht, _⟩ | ⟨_, hb⟩ | hb
                      · rw [hhs] at ht
                        exact Bool.noConfusion ht
                      · rw [hsu] at hb
                        exact absurd hb (by simp [isError])
                      · rw [hhs] at ht
                        exact Bool.noConfusion ht
                      · rw [hnp] at hb
                        exact absurd hb (by simp [isError])
                      · rw [hlsr] at hb
                        exact absurd hb (by simp [isError])

/-- C9: when any collaborator call of the run errors, the command exits
with code 1 after emitting exactly one standard-error message, and nothing
has been written to standard output (the text report is built in a string
and printed only by the final `fmt.Print`). -/
theorem run_collab_error_behavior (cluster : Cluster) (clusterKey : String)
    (inputs : RunInputs) (h : collabError cluster inputs) :
    (run cluster clusterKey inputs).2 = 1 ∧
    (∀ s, Event.stdout s ∉ (run cluster clusterKey inputs).1) ∧
    (∃ msg, (run cluster clusterKey inputs).1 = [Event.stderr msg]) := by
  obtain ⟨msg, hk⟩ := run_collab_error_core cluster clusterKey inputs h
  rw [hk]
  refine ⟨rfl, ?_, ⟨msg, rfl⟩⟩
  intro s hs
  rw [List.mem_singleton] at hs
  exact Event.noConfusion hs

/-- C9 witness: with every collaborator call succeeding except the
limited-support fetch, the run exits 1 and never writes to standard
output. -/
theorem run_collab_error_behavior_witness :
    (run sampleCluster "mycluster" sampleInputsLimitedSupportError).2 = 1 ∧
    (∀ s, Event.stdout s ∉ (run sampleCluster "mycluster" sampleInputsLimitedSupportError).1) :=
  ⟨(run_collab_error_behavior sampleCluster "mycluster" sampleInputsLimitedSupportError
      (Or.inr (Or.inr (Or.inr (Or.inr rfl))))).1,
    (run_collab_error_behavior sampleCluster "mycluster" sampleInputsLimitedSupportError
      (Or.inr (Or.inr (Or.inr (Or.inr rfl))))).2.1⟩

end DescribeCluster
